import Mathlib

/-!
Verification of the `NetworkTime` fixed-step accumulator (`src/time.rs`).

The Rust code is shallowly embedded as follows:

* `u32` / `u8` fields are `Nat` values; the type bounds `U32_MOD` / `U8_MOD`
  appear as explicit hypotheses or explicit `% U32_MOD` reductions where
  overflow matters.
* `std::time::Duration` is a pair of whole seconds and subsecond
  nanoseconds, exactly as in the Rust standard library; its arithmetic
  follows the std implementations (`checked_add`, `checked_sub`,
  `checked_div`).  The panicking operators (`-`, `/`) are modelled as the
  corresponding checked operation returning `Option`, with `none` for the
  panic.
* Integer overflow: Rust panics in debug builds and wraps in release
  builds.  `increment_frame_number` is the checked (debug) semantics;
  `increment_frame_number_wrapping` is the wrapping (release) semantics.
  The `Duration` subtraction inside it panics in both build modes, so both
  variants return `Option`.
-/

/-- Modulus of the Rust `u32` type. -/
def U32_MOD : Nat := 2 ^ 32

/-- Modulus of the Rust `u8` type. -/
def U8_MOD : Nat := 2 ^ 8

/-- Nanoseconds per second, as in `core::time::NANOS_PER_SEC`. -/
def NANOS_PER_SEC : Nat := 1000000000

/-- Rust `std::time::Duration`: a `u64` count of whole seconds plus a
subsecond nanosecond count (always `< NANOS_PER_SEC` for values built by
the std constructors). -/
structure Duration where
  secs : Nat
  nanos : Nat
deriving DecidableEq

/-- Total length of the duration in nanoseconds. -/
def Duration.totalNanos (d : Duration) : Nat :=
  d.secs * NANOS_PER_SEC + d.nanos

/-- Rust `Duration::from_secs`. -/
def Duration.from_secs (s : Nat) : Duration :=
  ⟨s, 0⟩

/-- Rust `Duration::from_millis`. -/
def Duration.from_millis (ms : Nat) : Duration :=
  ⟨ms / 1000, ms % 1000 * 1000000⟩

/-- Rust `Duration::checked_add` (the `+` operator panics exactly when this
returns `none`, i.e. when the second count leaves `u64`). -/
def Duration.add (a b : Duration) : Option Duration :=
  if a.secs + b.secs + (a.nanos + b.nanos) / NANOS_PER_SEC < 2 ^ 64 then
    some ⟨a.secs + b.secs + (a.nanos + b.nanos) / NANOS_PER_SEC,
          (a.nanos + b.nanos) % NANOS_PER_SEC⟩
  else none

/-- Rust `Duration::checked_sub`, borrow-based exactly as in std; the `-`
operator on `Duration` panics (in every build mode) exactly when this
returns `none`. -/
def Duration.checked_sub (a b : Duration) : Option Duration :=
  if b.secs ≤ a.secs then
    if b.nanos ≤ a.nanos then
      some ⟨a.secs - b.secs, a.nanos - b.nanos⟩
    else if 1 ≤ a.secs - b.secs then
      some ⟨a.secs - b.secs - 1, a.nanos + NANOS_PER_SEC - b.nanos⟩
    else none
  else none

/-- Rust `Duration::checked_div` by a `u32`, exactly as in std; the `/`
operator panics exactly when the divisor is zero. -/
def Duration.checked_div (d : Duration) (rhs : Nat) : Option Duration :=
  if rhs = 0 then none
  else
    some ⟨d.secs / rhs,
          d.nanos / rhs + (d.secs % rhs * NANOS_PER_SEC + d.nanos % rhs) / rhs⟩

/-- Rust `std::ops::RangeInclusive<u32>` as produced by `a..=b`; `last`
models the Rust field named `end`. -/
structure RangeInclusive where
  start : Nat
  last : Nat
deriving DecidableEq

/-- Rust `RangeInclusive::contains`: `start <= x && x <= end`. -/
def RangeInclusive.contains (r : RangeInclusive) (x : Nat) : Bool :=
  decide (r.start ≤ x) && decide (x ≤ r.last)

/-- Rust `RangeInclusive::is_empty` for a freshly built (non-exhausted)
range: `!(start <= end)`. -/
def RangeInclusive.isEmpty (r : RangeInclusive) : Bool :=
  decide (r.last < r.start)

/-- Number of values the range yields when iterated (`end + 1 - start`,
clamped at zero by `Nat` subtraction). -/
def RangeInclusive.count (r : RangeInclusive) : Nat :=
  r.last + 1 - r.start

/-- The `NetworkTime` struct of `src/time.rs`.  `frame_number` and
`frame_lag` are `u32`, `message_send_rate` is `u8`. -/
structure NetworkTime where
  frame_number : Nat
  elapsed_duration : Duration
  per_frame_duration : Duration
  message_send_rate : Nat
  frame_lag : Nat
deriving DecidableEq

/-- Rust `DEFAULT_TICKS_PER_MIN`. -/
def DEFAULT_TICKS_PER_MIN : Nat := 100

/-- Rust `impl Default for NetworkTime`.  The per-frame duration is
`Duration::from_secs(60) / DEFAULT_TICKS_PER_MIN`; the divisor is the
nonzero constant 100, so the `getD` fallback (the panic branch of `/`) is
never taken. -/
def NetworkTime.default : NetworkTime :=
  { frame_number := 0
  , elapsed_duration := Duration.from_secs 0
  , per_frame_duration :=
      ((Duration.from_secs 60).checked_div DEFAULT_TICKS_PER_MIN).getD ⟨0, 0⟩
  , message_send_rate := 1
  , frame_lag := 1 }

/-- Rust `network_frames_to_run`:
`(self.frame_number + 1 - self.frame_lag)..=self.frame_number` on `u32`,
checked (debug) semantics: `none` when `frame_number + 1` overflows `u32`
or when the subtraction underflows. -/
def NetworkTime.network_frames_to_run (t : NetworkTime) : Option RangeInclusive :=
  if t.frame_number + 1 < U32_MOD then
    if t.frame_lag ≤ t.frame_number + 1 then
      some ⟨t.frame_number + 1 - t.frame_lag, t.frame_number⟩
    else none
  else none

/-- Rust `should_send_message`:
`frame % u32::from(self.message_send_rate) == 0`; `%` by zero panics in
every build mode, modelled as `none`. -/
def NetworkTime.should_send_message (t : NetworkTime) (frame : Nat) : Option Bool :=
  if t.message_send_rate = 0 then none
  else some (decide (frame % t.message_send_rate = 0))

/-- Rust `should_send_message_now`: `self.should_send_message(self.frame_number)`. -/
def NetworkTime.should_send_message_now (t : NetworkTime) : Option Bool :=
  t.should_send_message t.frame_number

/-- Rust `increment_frame_number`, checked (debug-build) semantics: panics
(`none`) when `frame_number + 1` or `frame_lag + 1` overflows `u32`, or
when the `Duration` subtraction `elapsed_duration -= per_frame_duration`
underflows. -/
def NetworkTime.increment_frame_number (t : NetworkTime) : Option NetworkTime :=
  if t.frame_number + 1 < U32_MOD ∧ t.frame_lag + 1 < U32_MOD then
    match t.elapsed_duration.checked_sub t.per_frame_duration with
    | some e =>
      some { t with frame_number := t.frame_number + 1
                  , elapsed_duration := e
                  , frame_lag := t.frame_lag + 1 }
    | none => none
  else none

/-- Rust `increment_frame_number`, wrapping (release-build) semantics: the
`u32` additions wrap modulo `2^32`; the `Duration` subtraction still panics
(`none`) on underflow in release builds. -/
def NetworkTime.increment_frame_number_wrapping (t : NetworkTime) : Option NetworkTime :=
  match t.elapsed_duration.checked_sub t.per_frame_duration with
  | some e =>
    some { t with frame_number := (t.frame_number + 1) % U32_MOD
                , elapsed_duration := e
                , frame_lag := (t.frame_lag + 1) % U32_MOD }
  | none => none

/-- Rust `reset_frame_lag`. -/
def NetworkTime.reset_frame_lag (t : NetworkTime) : NetworkTime :=
  { t with frame_lag := 0 }

/-- Rust `update_elapsed`: `self.elapsed_duration += duration` (the `+`
panics on `u64` second overflow, modelled as `none`). -/
def NetworkTime.update_elapsed (t : NetworkTime) (duration : Duration) : Option NetworkTime :=
  match t.elapsed_duration.add duration with
  | some e => some { t with elapsed_duration := e }
  | none => none

/-- Rust `set_frame_number`. -/
def NetworkTime.set_frame_number (t : NetworkTime) (new_frame : Nat) : NetworkTime :=
  { t with frame_number := new_frame }

/-- Rust `set_network_frame_rate`:
`self.per_frame_duration = Duration::from_secs(1) / new_rate` (panics,
i.e. `none`, exactly when `new_rate = 0`). -/
def NetworkTime.set_network_frame_rate (t : NetworkTime) (new_rate : Nat) : Option NetworkTime :=
  match (Duration.from_secs 1).checked_div new_rate with
  | some d => some { t with per_frame_duration := d }
  | none => none

/-- Rust `set_message_send_rate`. -/
def NetworkTime.set_message_send_rate (t : NetworkTime) (new_rate : Nat) : NetworkTime :=
  { t with message_send_rate := new_rate }

/-- N successive calls of `increment_frame_number` (checked semantics),
failing as soon as one call fails. -/
def NetworkTime.incrementN : Nat → NetworkTime → Option NetworkTime
  | 0, t => some t
  | n + 1, t =>
    match t.increment_frame_number with
    | some t2 => NetworkTime.incrementN n t2
    | none => none

/- ## Theorems -/

/-- Claim C1: for every state whose stored `message_send_rate` is `N ≥ 1`,
`should_send_message F` returns `some` of `F % N == 0` for every frame `F`;
with `N = 2` it is true on exactly the even frames of `[1, 100)`; and
`should_send_message_now` is `should_send_message` applied to the current
`frame_number`. -/
theorem should_send_message_mod (t : NetworkTime) (hN : 1 ≤ t.message_send_rate) :
    (∀ F : Nat, t.should_send_message F = some (decide (F % t.message_send_rate = 0))) ∧
    (t.message_send_rate = 2 →
      ∀ F : Nat, 1 ≤ F → F < 100 →
        (t.should_send_message F = some true ↔ F % 2 = 0)) ∧
    t.should_send_message_now = t.should_send_message t.frame_number := by
  have hz : ¬ t.message_send_rate = 0 := by omega
  refine ⟨fun F => by simp [NetworkTime.should_send_message, hz], ?_, rfl⟩
  intro h2 F _ _
  simp [NetworkTime.should_send_message, hz, h2]

/-- Witness for C1: the theorem applied at a concrete state with send rate 2
and frame 4. -/
theorem should_send_message_mod_witness :
    (⟨0, ⟨0, 0⟩, ⟨0, 600000000⟩, 2, 1⟩ : NetworkTime).should_send_message 4 =
      some (decide (4 % (⟨0, ⟨0, 0⟩, ⟨0, 600000000⟩, 2, 1⟩ : NetworkTime).message_send_rate = 0)) :=
  (should_send_message_mod ⟨0, ⟨0, 0⟩, ⟨0, 600000000⟩, 2, 1⟩ (by decide)).1 4

/-- Claim C6: default construction yields frame 0, lag 1, send rate 1, zero
elapsed time, and a per-frame duration of one minute divided by 100, which
is exactly 600 milliseconds. -/
theorem default_fields :
    NetworkTime.default.frame_number = 0 ∧
    NetworkTime.default.frame_lag = 1 ∧
    NetworkTime.default.message_send_rate = 1 ∧
    NetworkTime.default.elapsed_duration = Duration.from_secs 0 ∧
    (Duration.from_secs 60).checked_div 100 = some NetworkTime.default.per_frame_duration ∧
    NetworkTime.default.per_frame_duration = Duration.from_millis 600 := by
  refine ⟨rfl, rfl, rfl, rfl, ?_, ?_⟩ <;> decide

/-- Claim C7: `set_frame_number n` sets `frame_number` to exactly `n` and
leaves every other field unchanged. -/
theorem set_frame_number_fields (t : NetworkTime) (n : Nat) :
    (t.set_frame_number n).frame_number = n ∧
    (t.set_frame_number n).elapsed_duration = t.elapsed_duration ∧
    (t.set_frame_number n).frame_lag = t.frame_lag ∧
    (t.set_frame_number n).per_frame_duration = t.per_frame_duration ∧
    (t.set_frame_number n).message_send_rate = t.message_send_rate :=
  ⟨rfl, rfl, rfl, rfl, rfl⟩

/-- Field bookkeeping of one successful checked increment: the frame number
and the frame lag each go up by one, the other settings are unchanged. -/
theorem increment_frame_number_spec (t t2 : NetworkTime)
    (h : t.increment_frame_number = some t2) :
    t2.frame_number = t.frame_number + 1 ∧
    t2.frame_lag = t.frame_lag + 1 ∧
    t2.per_frame_duration = t.per_frame_duration ∧
    t2.message_send_rate = t.message_send_rate := by
  unfold NetworkTime.increment_frame_number at h
  split at h
  · split at h
    · cases h
      exact ⟨rfl, rfl, rfl, rfl⟩
    · cases h
  · cases h

/-- Field bookkeeping of `N` successful checked increments. -/
theorem incrementN_spec (N : Nat) :
    ∀ t t2 : NetworkTime, NetworkTime.incrementN N t = some t2 →
      t2.frame_number = t.frame_number + N ∧
      t2.frame_lag = t.frame_lag + N := by
  induction N with
  | zero =>
    intro t t2 h
    cases h
    exact ⟨rfl, rfl⟩
  | succ n ih =>
    intro t t2 h
    unfold NetworkTime.incrementN at h
    revert h
    cases hstep : t.increment_frame_number with
    | none => intro h; cases h
    | some tmid =>
      intro h
      obtain ⟨hfn, hlag, -, -⟩ := increment_frame_number_spec t tmid hstep
      obtain ⟨hfn2, hlag2⟩ := ih tmid t2 h
      omega

/-- Claim C2 (amended): if `N ≥ 1` successive calls to
`increment_frame_number` with no intervening `reset_frame_lag` all succeed
(enough elapsed time is banked and no `u32` overflow occurs), then
`frame_number` and `frame_lag` each equal their pre-loop value plus `N`,
and — provided `frame_lag ≤ frame_number + 1` and `frame_number + 1` stays
below `2^32` — `network_frames_to_run` returns the inclusive range
`[frame_number - frame_lag + 1, frame_number]`, which holds exactly
`frame_lag` frame numbers and ends at the current `frame_number`. -/
theorem incrementN_frames_to_run (t t2 : NetworkTime) (N : Nat) (hN : 1 ≤ N)
    (hrun : NetworkTime.incrementN N t = some t2)
    (hb : t2.frame_number + 1 < U32_MOD)
    (hlag : t2.frame_lag ≤ t2.frame_number + 1) :
    t2.frame_number = t.frame_number + N ∧
    t2.frame_lag = t.frame_lag + N ∧
    t2.network_frames_to_run =
      some ⟨t2.frame_number + 1 - t2.frame_lag, t2.frame_number⟩ ∧
    RangeInclusive.count ⟨t2.frame_number + 1 - t2.frame_lag, t2.frame_number⟩ =
      t2.frame_lag := by
  obtain ⟨hfn, hfl⟩ := incrementN_spec N t t2 hrun
  refine ⟨hfn, hfl, ?_, ?_⟩
  · simp [NetworkTime.network_frames_to_run, hb, hlag]
  · simp [RangeInclusive.count]
    omega

/-- Counterexample for C2 as stated: from the default state (whose banked
elapsed time is zero) the very first call to `increment_frame_number`
already fails — the `Duration` subtraction underflows — so no post-state
with the claimed field values exists for every starting state. -/
theorem incrementN_default_fails :
    NetworkTime.incrementN 1 NetworkTime.default = none := by decide

/-- Witness for C2: a concrete two-increment run from frame 0 with 1.2
seconds banked at 600 ms per frame, reaching frame 2 with lag 3 and the
range `[0, 2]` of exactly 3 frames. -/
theorem incrementN_frames_to_run_witness :
    (⟨2, ⟨0, 0⟩, ⟨0, 600000000⟩, 1, 3⟩ : NetworkTime).frame_number =
      (⟨0, ⟨1, 200000000⟩, ⟨0, 600000000⟩, 1, 1⟩ : NetworkTime).frame_number + 2 ∧
    (⟨2, ⟨0, 0⟩, ⟨0, 600000000⟩, 1, 3⟩ : NetworkTime).frame_lag =
      (⟨0, ⟨1, 200000000⟩, ⟨0, 600000000⟩, 1, 1⟩ : NetworkTime).frame_lag + 2 ∧
    (⟨2, ⟨0, 0⟩, ⟨0, 600000000⟩, 1, 3⟩ : NetworkTime).network_frames_to_run =
      some ⟨(⟨2, ⟨0, 0⟩, ⟨0, 600000000⟩, 1, 3⟩ : NetworkTime).frame_number + 1 -
              (⟨2, ⟨0, 0⟩, ⟨0, 600000000⟩, 1, 3⟩ : NetworkTime).frame_lag,
            (⟨2, ⟨0, 0⟩, ⟨0, 600000000⟩, 1, 3⟩ : NetworkTime).frame_number⟩ ∧
    RangeInclusive.count
        ⟨(⟨2, ⟨0, 0⟩, ⟨0, 600000000⟩, 1, 3⟩ : NetworkTime).frame_number + 1 -
            (⟨2, ⟨0, 0⟩, ⟨0, 600000000⟩, 1, 3⟩ : NetworkTime).frame_lag,
          (⟨2, ⟨0, 0⟩, ⟨0, 600000000⟩, 1, 3⟩ : NetworkTime).frame_number⟩ =
      (⟨2, ⟨0, 0⟩, ⟨0, 600000000⟩, 1, 3⟩ : NetworkTime).frame_lag :=
  incrementN_frames_to_run
    ⟨0, ⟨1, 200000000⟩, ⟨0, 600000000⟩, 1, 1⟩
    ⟨2, ⟨0, 0⟩, ⟨0, 600000000⟩, 1, 3⟩ 2
    (by decide) (by decide) (by decide) (by decide)

/-- Claim C3 (amended): in every state with `frame_lag = 0` (and
`frame_number + 1` within `u32`), `network_frames_to_run` returns the range
`(frame_number + 1)..=frame_number`, whose start exceeds its end: it is an
empty range and does not contain the current `frame_number`. -/
theorem frames_to_run_zero_lag (t : NetworkTime) (h0 : t.frame_lag = 0)
    (hb : t.frame_number + 1 < U32_MOD) :
    t.network_frames_to_run = some ⟨t.frame_number + 1, t.frame_number⟩ ∧
    RangeInclusive.isEmpty ⟨t.frame_number + 1, t.frame_number⟩ = true ∧
    RangeInclusive.contains ⟨t.frame_number + 1, t.frame_number⟩ t.frame_number = false := by
  refine ⟨?_, ?_, ?_⟩
  · simp [NetworkTime.network_frames_to_run, hb, h0]
  · simp [RangeInclusive.isEmpty]
  · simp [RangeInclusive.contains]

/-- Counterexample for C3 as stated: at frame 5 with `frame_lag = 0` (the
state reached by `reset_frame_lag`), the produced range is `6..=5`, which
does not contain the current frame 5 and is empty, contradicting the
claimed non-empty range that includes the current frame. -/
theorem frames_to_run_zero_lag_empty :
    (NetworkTime.reset_frame_lag ⟨5, ⟨0, 0⟩, ⟨0, 600000000⟩, 1, 1⟩).network_frames_to_run =
      some ⟨6, 5⟩ ∧
    RangeInclusive.contains ⟨6, 5⟩ 5 = false ∧
    RangeInclusive.isEmpty ⟨6, 5⟩ = true := by decide

/-- Witness for C3: the amended theorem applied at the concrete state of
frame 5 with zero lag. -/
theorem frames_to_run_zero_lag_witness :
    (⟨5, ⟨0, 0⟩, ⟨0, 600000000⟩, 1, 0⟩ : NetworkTime).network_frames_to_run =
      some ⟨(⟨5, ⟨0, 0⟩, ⟨0, 600000000⟩, 1, 0⟩ : NetworkTime).frame_number + 1,
            (⟨5, ⟨0, 0⟩, ⟨0, 600000000⟩, 1, 0⟩ : NetworkTime).frame_number⟩ ∧
    RangeInclusive.isEmpty
        ⟨(⟨5, ⟨0, 0⟩, ⟨0, 600000000⟩, 1, 0⟩ : NetworkTime).frame_number + 1,
          (⟨5, ⟨0, 0⟩, ⟨0, 600000000⟩, 1, 0⟩ : NetworkTime).frame_number⟩ = true ∧
    RangeInclusive.contains
        ⟨(⟨5, ⟨0, 0⟩, ⟨0, 600000000⟩, 1, 0⟩ : NetworkTime).frame_number + 1,
          (⟨5, ⟨0, 0⟩, ⟨0, 600000000⟩, 1, 0⟩ : NetworkTime).frame_number⟩
        (⟨5, ⟨0, 0⟩, ⟨0, 600000000⟩, 1, 0⟩ : NetworkTime).frame_number = false :=
  frames_to_run_zero_lag ⟨5, ⟨0, 0⟩, ⟨0, 600000000⟩, 1, 0⟩ (by decide) (by decide)

/-- Rust `Duration` ordering (lexicographic on seconds then nanoseconds,
which agrees with the total nanosecond count for normalized values). -/
def Duration.lt (a b : Duration) : Prop :=
  a.secs < b.secs ∨ (a.secs = b.secs ∧ a.nanos < b.nanos)

instance (a b : Duration) : Decidable (Duration.lt a b) := by
  unfold Duration.lt
  infer_instance

/-- Claim C4 (amended): in every state with
`elapsed_duration < per_frame_duration`, `increment_frame_number` fails —
the subtraction `elapsed_duration -= per_frame_duration` underflows the
unsigned `Duration` type and panics, in debug and release builds alike.
`elapsed_duration` is never left negative, because `Duration` cannot
represent negative values: the operation does have a sufficiency
precondition and its failure branch is taken whenever elapsed time is
insufficient. -/
theorem increment_insufficient_elapsed_fails (t : NetworkTime)
    (h : Duration.lt t.elapsed_duration t.per_frame_duration) :
    t.elapsed_duration.checked_sub t.per_frame_duration = none ∧
    t.increment_frame_number = none ∧
    t.increment_frame_number_wrapping = none := by
  have hsub : t.elapsed_duration.checked_sub t.per_frame_duration = none := by
    unfold Duration.checked_sub
    rcases h with h | ⟨h1, h2⟩
    · rw [if_neg (by omega)]
    · rw [if_pos (by omega), if_neg (by omega), if_neg (by omega)]
  refine ⟨hsub, ?_, ?_⟩
  · unfold NetworkTime.increment_frame_number
    rw [hsub]
    split <;> rfl
  · unfold NetworkTime.increment_frame_number_wrapping
    rw [hsub]

/-- Witness for C4: the default state has zero elapsed time and a 600 ms
per-frame duration, so incrementing fails. -/
theorem increment_insufficient_elapsed_fails_witness :
    NetworkTime.default.elapsed_duration.checked_sub
        NetworkTime.default.per_frame_duration = none ∧
    NetworkTime.default.increment_frame_number = none ∧
    NetworkTime.default.increment_frame_number_wrapping = none :=
  increment_insufficient_elapsed_fails NetworkTime.default (by decide)

/-- Claim C5: a state with `frame_lag > frame_number + 1` is reachable from
the default state through the public interface (bank 1.2 seconds of
elapsed time, increment the frame number twice, then `set_frame_number 0`),
and there the computation `frame_number + 1 - frame_lag` inside
`network_frames_to_run` underflows `u32`: the arithmetic-failure branch is
reachable. -/
theorem frames_to_run_underflow_reachable :
    ∃ t : NetworkTime,
      Option.map (fun s => s.set_frame_number 0)
          (Option.bind (NetworkTime.default.update_elapsed ⟨1, 200000000⟩)
            (NetworkTime.incrementN 2)) = some t ∧
      t.frame_number + 1 < t.frame_lag ∧
      t.network_frames_to_run = none :=
  ⟨⟨0, ⟨0, 0⟩, ⟨0, 600000000⟩, 1, 3⟩, by decide, by decide, by decide⟩

/-- Claim C8: for every positive `u32` rate `R`, `set_network_frame_rate R`
succeeds and sets `per_frame_duration` to exactly one second divided by `R`
under integer nanosecond division (`10^9 / R` nanoseconds); `R = 20` yields
exactly 50 milliseconds; no other field changes. -/
theorem set_network_frame_rate_exact (t : NetworkTime) (R : Nat)
    (h1 : 1 ≤ R) (h2 : R < U32_MOD) :
    ∃ t2 : NetworkTime, t.set_network_frame_rate R = some t2 ∧
      t2.per_frame_duration.totalNanos = NANOS_PER_SEC / R ∧
      (R = 20 → t2.per_frame_duration = Duration.from_millis 50) ∧
      t2.frame_number = t.frame_number ∧
      t2.elapsed_duration = t.elapsed_duration ∧
      t2.frame_lag = t.frame_lag ∧
      t2.message_send_rate = t.message_send_rate := by
  have hz : ¬ R = 0 := by omega
  refine ⟨{ t with per_frame_duration :=
              ⟨1 / R, 0 / R + (1 % R * NANOS_PER_SEC + 0 % R) / R⟩ },
          ?_, ?_, ?_, rfl, rfl, rfl, rfl⟩
  · simp [NetworkTime.set_network_frame_rate, Duration.checked_div,
          Duration.from_secs, hz]
  · show 1 / R * NANOS_PER_SEC + (0 / R + (1 % R * NANOS_PER_SEC + 0 % R) / R) =
      NANOS_PER_SEC / R
    rcases Nat.lt_or_ge R 2 with h | h
    · have hR1 : R = 1 := by omega
      subst hR1
      simp
    · have hdiv : 1 / R = 0 := Nat.div_eq_of_lt (by omega)
      have hmod : 1 % R = 1 := Nat.mod_eq_of_lt (by omega)
      simp [hdiv, hmod]
  · intro hR
    subst hR
    show (⟨1 / 20, 0 / 20 + (1 % 20 * NANOS_PER_SEC + 0 % 20) / 20⟩ : Duration) =
      Duration.from_millis 50
    decide

/-- Witness for C8: the theorem applied at the default state with rate 20. -/
theorem set_network_frame_rate_exact_witness :
    ∃ t2 : NetworkTime, NetworkTime.default.set_network_frame_rate 20 = some t2 ∧
      t2.per_frame_duration.totalNanos = NANOS_PER_SEC / 20 ∧
      (20 = 20 → t2.per_frame_duration = Duration.from_millis 50) ∧
      t2.frame_number = NetworkTime.default.frame_number ∧
      t2.elapsed_duration = NetworkTime.default.elapsed_duration ∧
      t2.frame_lag = NetworkTime.default.frame_lag ∧
      t2.message_send_rate = NetworkTime.default.message_send_rate :=
  set_network_frame_rate_exact NetworkTime.default 20 (by decide) (by decide)

/-- Claim C9: `set_message_send_rate 0` is accepted without any guard, and
in the resulting state every `should_send_message` call — and therefore
`should_send_message_now` — hits the modulo-by-zero panic branch (`none`):
the division-by-zero failure is reachable from the public interface. -/
theorem send_rate_zero_reachable_div_zero (t : NetworkTime) :
    (t.set_message_send_rate 0).message_send_rate = 0 ∧
    (∀ F : Nat, (t.set_message_send_rate 0).should_send_message F = none) ∧
    (t.set_message_send_rate 0).should_send_message_now = none :=
  ⟨rfl, fun _ => rfl, rfl⟩

/-- Claim C10: whenever the `Duration` subtraction succeeds, release-mode
(`wrapping`) increment adds one to `frame_number` and `frame_lag` modulo
`2^32`; at `frame_number = u32::MAX` the counter wraps to 0, breaking
monotonic non-decrease, and the checked (debug) increment fails outright;
`frame_lag` wraps to 0 at its `u32` maximum in the same way. -/
theorem increment_wraps_at_u32_max (t : NetworkTime) (e : Duration)
    (hel : t.elapsed_duration.checked_sub t.per_frame_duration = some e) :
    t.increment_frame_number_wrapping =
      some { t with frame_number := (t.frame_number + 1) % U32_MOD
                  , elapsed_duration := e
                  , frame_lag := (t.frame_lag + 1) % U32_MOD } ∧
    (t.frame_number = U32_MOD - 1 →
      (t.frame_number + 1) % U32_MOD = 0 ∧
      ¬ t.frame_number ≤ (t.frame_number + 1) % U32_MOD ∧
      t.increment_frame_number = none) ∧
    (t.frame_lag = U32_MOD - 1 → (t.frame_lag + 1) % U32_MOD = 0) := by
  have hU : U32_MOD = 4294967296 := by norm_num [U32_MOD]
  refine ⟨?_, ?_, ?_⟩
  · unfold NetworkTime.increment_frame_number_wrapping
    rw [hel]
  · intro hfn
    refine ⟨by rw [hfn, hU], by rw [hfn, hU]; decide, ?_⟩
    unfold NetworkTime.increment_frame_number
    rw [if_neg (by rw [hfn, hU]; omega)]
  · intro hlag
    rw [hlag, hU]

/-- Witness for C10: at frame `u32::MAX` with lag `u32::MAX` and exactly one
frame of elapsed time banked, the wrapping increment lands on frame 0 with
lag 0, and the checked increment fails. -/
theorem increment_wraps_at_u32_max_witness :
    (⟨4294967295, ⟨0, 600000000⟩, ⟨0, 600000000⟩, 1, 4294967295⟩ :
        NetworkTime).increment_frame_number_wrapping =
      some ⟨0, ⟨0, 0⟩, ⟨0, 600000000⟩, 1, 0⟩ ∧
    (⟨4294967295, ⟨0, 600000000⟩, ⟨0, 600000000⟩, 1, 4294967295⟩ :
        NetworkTime).increment_frame_number = none := by
  obtain ⟨h1, h2, h3⟩ := increment_wraps_at_u32_max
    ⟨4294967295, ⟨0, 600000000⟩, ⟨0, 600000000⟩, 1, 4294967295⟩ ⟨0, 0⟩ (by decide)
  refine ⟨?_, (h2 (by decide)).2.2⟩
  rw [h1]
  decide

/-- Counterexample for C4 as stated: in the default state the elapsed time
(zero) is below the per-frame duration (600 ms), and there
`increment_frame_number` does fail — its error branch is taken — rather
than succeeding with a negative elapsed value. -/
theorem increment_default_error_branch :
    Duration.lt NetworkTime.default.elapsed_duration
      NetworkTime.default.per_frame_duration ∧
    NetworkTime.default.increment_frame_number = none ∧
    NetworkTime.default.increment_frame_number_wrapping = none := by decide
